import Mathlib

/-!
Shallow embedding of the roof-area estimation pipeline of src/server.py
(the function detect_roof_area, lines 24-115, and the pieces it is built
from).  Machine floats are modelled by exact arithmetic: rationals for the
pixel and area computations, reals where transcendental functions (tan, log,
sqrt, pi) occur.  Python int() (truncation toward zero) is pyInt; the Python
built-in round() (round half to even) is pyRound.  A Python expression whose
evaluation raises (NaN or an infinity fed to int()) is modelled by Option:
none is the raised exception, caught by the blanket handler at lines 113-115.
The tile fetch plus image decode (lines 49-56) is an external collaborator
and is modelled as an oracle of type tile index to Option PixelGrid, where
none covers every network, timeout and decode failure.
-/

/-- Python int() applied to a real value: truncation toward zero. -/
noncomputable def pyInt (r : ℝ) : ℤ := if 0 ≤ r then ⌊r⌋ else ⌈r⌉

/-- The Python built-in round() on an exact rational: round half to even. -/
def pyRound (q : ℚ) : ℤ :=
  if q - ⌊q⌋ < 1 / 2 then ⌊q⌋
  else if 1 / 2 < q - ⌊q⌋ then ⌊q⌋ + 1
  else if ⌊q⌋ % 2 = 0 then ⌊q⌋ else ⌊q⌋ + 1

/-- Lines 37-39 of detect_roof_area: the coded tile-coordinate computation
x = int((lng + 180) / 360 * n),
y = int((1 - log(tan(lat * pi / 180 + pi / 4) / pi)) / 2 * n).
The result is none when the int() call for y raises, which happens exactly
when tan(lat * pi / 180 + pi / 4) is not positive: a negative tangent makes
log produce NaN, a zero tangent makes it produce negative infinity, and
int() raises on both. -/
noncomputable def tileXY (lat lng : ℝ) (zoom : ℕ) : Option (ℤ × ℤ) :=
  let n : ℝ := 2 ^ zoom
  let x : ℤ := pyInt ((lng + 180) / 360 * n)
  let t : ℝ := Real.tan (lat * Real.pi / 180 + Real.pi / 4) / Real.pi
  if 0 < t then some (x, pyInt ((1 - Real.log t) / 2 * n)) else none

/-- Modelled from the spec: the standard Web Mercator slippy-map formula of
spec section 4.1, x = floor((lng + 180) / 360 * n) and
y = floor((1 - ln(tan(lat * pi / 180) + sec(lat * pi / 180)) / pi) / 2 * n),
with sec written as 1 / cos.  Stated only to compare with tileXY. -/
noncomputable def specTileXY (lat lng : ℝ) (zoom : ℕ) : ℤ × ℤ :=
  let n : ℝ := 2 ^ zoom
  (⌊(lng + 180) / 360 * n⌋,
   ⌊(1 - Real.log (Real.tan (lat * Real.pi / 180) + 1 / Real.cos (lat * Real.pi / 180)) / Real.pi) / 2 * n⌋)

/-- A decoded image (lines 53-64): gray is the luma raster obtained from the
PIL conversion to mode L, chan is the original sample raster, shape3 records
whether the original numpy array has a channel axis (len(shape) == 3) and
nchan its channel count (shape[2]). -/
structure PixelGrid where
  h : ℕ
  w : ℕ
  shape3 : Bool
  nchan : ℕ
  chan : ℕ → ℕ → ℕ → ℚ
  gray : ℕ → ℕ → ℚ

/-- np.gradient along axis 1 (line 67): one-sided difference at the first and
last column, central difference in the interior. -/
def gradX (g : PixelGrid) (i j : ℕ) : ℚ :=
  if j = 0 then g.gray i 1 - g.gray i 0
  else if j = g.w - 1 then g.gray i (g.w - 1) - g.gray i (g.w - 2)
  else (g.gray i (j + 1) - g.gray i (j - 1)) / 2

/-- np.gradient along axis 0 (line 68). -/
def gradY (g : PixelGrid) (i j : ℕ) : ℚ :=
  if i = 0 then g.gray 1 j - g.gray 0 j
  else if i = g.h - 1 then g.gray (g.h - 1) j - g.gray (g.h - 2) j
  else (g.gray (i + 1) j - g.gray (i - 1) j) / 2

/-- Line 69: edges = sqrt(gx ** 2 + gy ** 2). -/
noncomputable def edgeMag (g : PixelGrid) (i j : ℕ) : ℝ :=
  Real.sqrt ((gradX g i j ^ 2 + gradY g i j ^ 2 : ℚ))

/-- The flattened list of all edge magnitudes of the grid, row major. -/
noncomputable def edgeList (g : PixelGrid) : List ℝ :=
  (List.range g.h).flatMap fun i => (List.range g.w).map fun j => edgeMag g i j

/-- np.percentile(v, 75) with the default linear interpolation: with the
values sorted ascending and N the count, the position is 0.75 * (N - 1) and
the result interpolates between the two adjacent order statistics. -/
noncomputable def percentile75 (l : List ℝ) : ℝ :=
  let s := l.mergeSort fun a b => decide (a ≤ b)
  let pos : ℚ := 3 * ((l.length : ℚ) - 1) / 4
  let k : ℕ := (⌊pos⌋).toNat
  s.getD k 0 + ((pos - k : ℚ) : ℝ) * (s.getD (k + 1) 0 - s.getD k 0)

/-- Line 72: the adaptive edge threshold, np.percentile(edges, 75). -/
noncomputable def edgeThreshold (g : PixelGrid) : ℝ := percentile75 (edgeList g)

/-- Line 72: edge_binary = edges > np.percentile(edges, 75). -/
noncomputable def edgeBinary (g : PixelGrid) (i j : ℕ) : Prop :=
  edgeThreshold g < edgeMag g i j

/-- Line 76: dark_pixels = gray_array < 150. -/
def darkPixels (g : PixelGrid) (i j : ℕ) : Prop := g.gray i j < 150

/-- Line 77: building_mask = dark_pixels & edge_binary. -/
noncomputable def buildingMask (g : PixelGrid) (i j : ℕ) : Prop :=
  darkPixels g i j ∧ edgeBinary g i j

open Classical in
/-- np.sum of a boolean mask over the whole grid: the number of positions
where the mask holds. -/
noncomputable def maskCount (g : PixelGrid) (m : ℕ → ℕ → Prop) : ℕ :=
  ((Finset.range g.h ×ˢ Finset.range g.w).filter fun p => m p.1 p.2).card

/-- Line 79: area_pixels = np.sum(building_mask). -/
noncomputable def primaryCount (g : PixelGrid) : ℕ := maskCount g (buildingMask g)

/-- Line 85: np.std(img_array[:, :, :3], axis=2), the per-pixel population
standard deviation across the first three channels. -/
noncomputable def chanStd (g : PixelGrid) (i j : ℕ) : ℝ :=
  let m : ℚ := (g.chan i j 0 + g.chan i j 1 + g.chan i j 2) / 3
  Real.sqrt ((((g.chan i j 0 - m) ^ 2 + (g.chan i j 1 - m) ^ 2 + (g.chan i j 2 - m) ^ 2) / 3 : ℚ))

/-- Line 86: building_candidate = color_var > 30. -/
noncomputable def buildingCandidate (g : PixelGrid) (i j : ℕ) : Prop :=
  30 < chanStd g i j

/-- Line 87: area_pixels = np.sum(building_candidate). -/
noncomputable def fallbackCount (g : PixelGrid) : ℕ := maskCount g (buildingCandidate g)

/-- Line 94: meters_per_tile = 38.2. -/
def metersPerTile : ℚ := 38.2

/-- Line 95: meters_per_pixel = meters_per_tile / 256.0. -/
def metersPerPixel : ℚ := metersPerTile / 256

/-- Line 96: sq_meters_per_pixel = meters_per_pixel ** 2. -/
def sqMetersPerPixel : ℚ := metersPerPixel ^ 2

/-- Lines 98-102: square feet after the unit conversion and the 0.6
correction factor, as a function of the pixel count. -/
def areaSqFeetOf (c : ℕ) : ℚ := c * sqMetersPerPixel * 10.764 * 0.6

/-- Lines 105-108: the sanity bounds, substituting fixed constants rather
than clamping. -/
def boundedArea (a : ℚ) : ℚ :=
  if a < 500 then 4500 else if 15000 < a then 8000 else a

/-- Lines 105-111: bounds followed by rounding to the nearest 100. -/
def convertArea (a : ℚ) : ℤ := pyRound (boundedArea a / 100) * 100

/-- Lines 94-111: the full pixel-count to area conversion. -/
def areaConvert (c : ℕ) : ℤ := convertArea (areaSqFeetOf c)

/-- Lines 58-111: the analysis applied to a decoded grid.  The early return
at line 89 (grid without at least three channels once the primary mask is
too small) yields 4500 directly, bypassing the area conversion. -/
noncomputable def analyzeGrid (g : PixelGrid) : ℤ :=
  let c := primaryCount g
  if c < 100 then
    if g.shape3 = true ∧ 3 ≤ g.nchan then areaConvert (fallbackCount g)
    else 4500
  else areaConvert c

/-- Lines 24-115: detect_roof_area.  hasCV2 models the HAS_CV2 import flag
(lines 14-19, 29-31); fetch models the tile download plus decode (lines
49-56), none being any failure there; every failure path inside the try
block is mapped by the handler at lines 113-115 to the default 4500. -/
noncomputable def detect_roof_area (hasCV2 : Bool) (lat lng : ℝ)
    (fetch : ℤ × ℤ → Option PixelGrid) : ℤ :=
  if hasCV2 = false then 4500
  else
    match tileXY lat lng 18 with
    | none => 4500
    | some t =>
      match fetch t with
      | none => 4500
      | some g => analyzeGrid g

/-- A 256 by 256 grid whose luma raster is the constant gv and whose sample
raster is the constant color (r, gc, b); s3 and nc describe the decoded
array shape. -/
def uniformGrid (s3 : Bool) (nc : ℕ) (gv r gc b : ℚ) : PixelGrid :=
  ⟨256, 256, s3, nc, fun _ _ ch => if ch = 0 then r else if ch = 1 then gc else b,
   fun _ _ => gv⟩

/-- The output range stated in spec section 8: one of the two fixed fallback
constants, or a multiple of 100 inside [500, 15000]. -/
def allowedEstimate (v : ℤ) : Prop :=
  v = 4500 ∨ v = 8000 ∨ ∃ k : ℤ, v = k * 100 ∧ 500 ≤ v ∧ v ≤ 15000

/-! ### Helper lemmas about the rounding and area conversion -/

lemma pyRound_eq_floor_or (q : ℚ) : pyRound q = ⌊q⌋ ∨ pyRound q = ⌊q⌋ + 1 := by
  unfold pyRound
  split_ifs <;> simp

lemma pyRound_intCast (n : ℤ) : pyRound (n : ℚ) = n := by
  unfold pyRound
  rw [Int.floor_intCast]
  simp

lemma le_pyRound (n : ℤ) (q : ℚ) (h : (n : ℚ) ≤ q) : n ≤ pyRound q := by
  have hf : n ≤ ⌊q⌋ := Int.le_floor.mpr h
  rcases pyRound_eq_floor_or q with h1 | h1 <;> omega

lemma pyRound_le (n : ℤ) (q : ℚ) (h : q ≤ (n : ℚ)) : pyRound q ≤ n := by
  have hf : ⌊q⌋ ≤ n := by
    have := Int.floor_le_floor h
    rwa [Int.floor_intCast] at this
  unfold pyRound
  split_ifs with h1 h2 h3
  · exact hf
  · rcases hf.lt_or_eq with hlt | heq
    · omega
    · exfalso
      rw [heq] at h2
      have : (n : ℚ) - n = 0 := by ring
      have hq : (1 : ℚ) / 2 < q - n := by exact_mod_cast h2
      linarith
  · exact hf
  · rcases hf.lt_or_eq with hlt | heq
    · omega
    · exfalso
      rw [heq] at h1
      have hq : ¬ q - (n : ℚ) < 1 / 2 := by exact_mod_cast h1
      linarith

lemma convertArea_allowed (a : ℚ) : allowedEstimate (convertArea a) := by
  unfold convertArea boundedArea allowedEstimate
  split_ifs with h1 h2
  · left
    have h45 : (4500 : ℚ) / 100 = ((45 : ℤ) : ℚ) := by norm_num
    rw [h45, pyRound_intCast]
    norm_num
  · right; left
    have h80 : (8000 : ℚ) / 100 = ((80 : ℤ) : ℚ) := by norm_num
    rw [h80, pyRound_intCast]
    norm_num
  · right; right
    refine ⟨pyRound (a / 100), rfl, ?_, ?_⟩
    · have h5 : (5 : ℤ) ≤ pyRound (a / 100) := by
        apply le_pyRound
        push_cast
        linarith
      omega
    · have h150 : pyRound (a / 100) ≤ (150 : ℤ) := by
        apply pyRound_le
        push_cast
        linarith
      omega

lemma areaConvert_allowed (c : ℕ) : allowedEstimate (areaConvert c) :=
  convertArea_allowed (areaSqFeetOf c)

lemma analyzeGrid_eq (g : PixelGrid) :
    analyzeGrid g =
      if primaryCount g < 100 then
        if g.shape3 = true ∧ 3 ≤ g.nchan then areaConvert (fallbackCount g) else 4500
      else areaConvert (primaryCount g) := rfl

lemma analyzeGrid_allowed (g : PixelGrid) : allowedEstimate (analyzeGrid g) := by
  rw [analyzeGrid_eq]
  split_ifs
  · exact areaConvert_allowed _
  · left; rfl
  · exact areaConvert_allowed _

lemma allowedEstimate_mul100 (v : ℤ) (h : allowedEstimate v) :
    ∃ k : ℤ, 0 ≤ k ∧ v = k * 100 := by
  rcases h with h | h | ⟨k, hk, hlo, hhi⟩
  · exact ⟨45, by omega, by omega⟩
  · exact ⟨80, by omega, by omega⟩
  · exact ⟨k, by omega, hk⟩

/-! ### Helper lemmas about the tile-coordinate computation -/

lemma tileXY_eq_none (lat lng : ℝ) (zoom : ℕ)
    (h : Real.tan (lat * Real.pi / 180 + Real.pi / 4) ≤ 0) :
    tileXY lat lng zoom = none := by
  have ht : Real.tan (lat * Real.pi / 180 + Real.pi / 4) / Real.pi ≤ 0 :=
    div_nonpos_of_nonpos_of_nonneg h Real.pi_pos.le
  simp only [tileXY]
  rw [if_neg (not_lt.mpr ht)]

lemma tan_angle_zero : Real.tan ((0 : ℝ) * Real.pi / 180 + Real.pi / 4) = 1 := by
  have h : (0 : ℝ) * Real.pi / 180 + Real.pi / 4 = Real.pi / 4 := by ring
  rw [h, Real.tan_pi_div_four]

lemma tan_angle_neg_of_gt45 (lat : ℝ) (h1 : 45 < lat) (h2 : lat ≤ 90) :
    Real.tan (lat * Real.pi / 180 + Real.pi / 4) < 0 := by
  have hpi := Real.pi_pos
  have hm : 45 * Real.pi < lat * Real.pi := (mul_lt_mul_right hpi).mpr h1
  have hm2 : lat * Real.pi ≤ 90 * Real.pi := mul_le_mul_of_nonneg_right h2 hpi.le
  have ha : Real.pi / 2 < lat * Real.pi / 180 + Real.pi / 4 := by linarith
  have hb : lat * Real.pi / 180 + Real.pi / 4 < Real.pi := by linarith
  have hs : 0 < Real.sin (lat * Real.pi / 180 + Real.pi / 4) :=
    Real.sin_pos_of_pos_of_lt_pi (by linarith) hb
  have hc : Real.cos (lat * Real.pi / 180 + Real.pi / 4) < 0 :=
    Real.cos_neg_of_pi_div_two_lt_of_lt ha (by linarith)
  rw [Real.tan_eq_sin_div_cos]
  exact div_neg_of_pos_of_neg hs hc

lemma tan_angle_nonpos_of_le_neg45 (lat : ℝ) (h1 : -90 ≤ lat) (h2 : lat ≤ -45) :
    Real.tan (lat * Real.pi / 180 + Real.pi / 4) ≤ 0 := by
  have hpi := Real.pi_pos
  have hm : lat * Real.pi ≤ -45 * Real.pi := mul_le_mul_of_nonneg_right h2 hpi.le
  have hm2 : -90 * Real.pi ≤ lat * Real.pi := mul_le_mul_of_nonneg_right h1 hpi.le
  have ht1 : lat * Real.pi / 180 + Real.pi / 4 ≤ 0 := by linarith
  have ht2 : -(Real.pi / 2) < lat * Real.pi / 180 + Real.pi / 4 := by linarith
  rcases ht1.lt_or_eq with hlt | heq
  · exact (Real.tan_neg_of_neg_of_pi_div_two_lt hlt ht2).le
  · rw [heq, Real.tan_zero]

lemma tan_angle_at_45 : Real.tan ((45 : ℝ) * Real.pi / 180 + Real.pi / 4) = 0 := by
  have h : (45 : ℝ) * Real.pi / 180 + Real.pi / 4 = Real.pi / 2 := by ring
  rw [h, Real.tan_pi_div_two]

lemma pyInt_x_origin : pyInt (((0 : ℝ) + 180) / 360 * 2 ^ 18) = 131072 := by
  have h : ((0 : ℝ) + 180) / 360 * 2 ^ 18 = ((131072 : ℤ) : ℝ) := by norm_num
  rw [h]
  unfold pyInt
  rw [if_pos (by norm_num), Int.floor_intCast]

lemma tileXY_origin :
    tileXY 0 0 18 = some (131072, pyInt ((1 - Real.log (1 / Real.pi)) / 2 * 2 ^ 18)) := by
  simp only [tileXY]
  rw [tan_angle_zero]
  rw [if_pos (by positivity)]
  rw [pyInt_x_origin]

lemma log_pi_gt_one : 1 < Real.log Real.pi := by
  have h1 : Real.exp 1 < Real.pi :=
    lt_trans Real.exp_one_lt_d9 (lt_trans (by norm_num) Real.pi_gt_three)
  calc 1 = Real.log (Real.exp 1) := (Real.log_exp 1).symm
  _ < Real.log Real.pi := Real.log_lt_log (Real.exp_pos 1) h1

lemma y_origin_big : 131072 < pyInt ((1 - Real.log (1 / Real.pi)) / 2 * 2 ^ 18) := by
  have hlog : Real.log (1 / Real.pi) = -Real.log Real.pi := by
    rw [one_div, Real.log_inv]
  have h2 : ((2 : ℝ) ^ 18) = 262144 := by norm_num
  have hv : (1 - Real.log (1 / Real.pi)) / 2 * 2 ^ 18 =
      (1 + Real.log Real.pi) * 131072 := by
    rw [hlog, h2]; ring
  rw [hv]
  have hlp := log_pi_gt_one
  have hpos : (0 : ℝ) ≤ (1 + Real.log Real.pi) * 131072 := by nlinarith
  unfold pyInt
  rw [if_pos hpos]
  have hfl : (262144 : ℤ) ≤ ⌊(1 + Real.log Real.pi) * 131072⌋ := by
    apply Int.le_floor.mpr
    push_cast
    nlinarith
  omega

/-! ### Helper lemmas about masks, counts and uniform grids -/

lemma getD_zero_of_all_zero (l : List ℝ) (k : ℕ) (h : ∀ x ∈ l, x = 0) :
    l.getD k 0 = 0 := by
  by_cases hk : k < l.length
  · rw [List.getD_eq_getElem l 0 hk]
    exact h _ (List.getElem_mem hk)
  · exact List.getD_eq_default l 0 (le_of_not_lt hk)

lemma percentile75_all_zero (l : List ℝ) (h : ∀ x ∈ l, x = 0) :
    percentile75 l = 0 := by
  have hs : ∀ x ∈ l.mergeSort fun a b => decide (a ≤ b), x = 0 := by
    intro x hx
    exact h x (List.mem_mergeSort.mp hx)
  simp only [percentile75]
  rw [getD_zero_of_all_zero _ _ hs, getD_zero_of_all_zero _ _ hs]
  ring

lemma gradX_uniform (s3 : Bool) (nc : ℕ) (gv r gc b : ℚ) (i j : ℕ) :
    gradX (uniformGrid s3 nc gv r gc b) i j = 0 := by
  unfold gradX uniformGrid
  dsimp only
  split_ifs <;> ring

lemma gradY_uniform (s3 : Bool) (nc : ℕ) (gv r gc b : ℚ) (i j : ℕ) :
    gradY (uniformGrid s3 nc gv r gc b) i j = 0 := by
  unfold gradY uniformGrid
  dsimp only
  split_ifs <;> ring

lemma edgeMag_uniform (s3 : Bool) (nc : ℕ) (gv r gc b : ℚ) (i j : ℕ) :
    edgeMag (uniformGrid s3 nc gv r gc b) i j = 0 := by
  unfold edgeMag
  rw [gradX_uniform, gradY_uniform]
  simp

lemma mem_edgeList (g : PixelGrid) (x : ℝ) (hx : x ∈ edgeList g) :
    ∃ i j, x = edgeMag g i j := by
  unfold edgeList at hx
  rw [List.mem_flatMap] at hx
  obtain ⟨i, _, hxi⟩ := hx
  rw [List.mem_map] at hxi
  obtain ⟨j, _, hj⟩ := hxi
  exact ⟨i, j, hj.symm⟩

lemma edgeThreshold_uniform (s3 : Bool) (nc : ℕ) (gv r gc b : ℚ) :
    edgeThreshold (uniformGrid s3 nc gv r gc b) = 0 := by
  unfold edgeThreshold
  apply percentile75_all_zero
  intro x hx
  obtain ⟨i, j, hij⟩ := mem_edgeList _ x hx
  rw [hij, edgeMag_uniform]

open Classical in
lemma maskCount_eq_zero (g : PixelGrid) (m : ℕ → ℕ → Prop) (h : ∀ i j, ¬ m i j) :
    maskCount g m = 0 := by
  unfold maskCount
  rw [Finset.card_eq_zero, Finset.filter_eq_empty_iff]
  intro p _
  exact h p.1 p.2

open Classical in
lemma maskCount_eq_all (g : PixelGrid) (m : ℕ → ℕ → Prop) (h : ∀ i j, m i j) :
    maskCount g m = g.h * g.w := by
  unfold maskCount
  rw [Finset.filter_true_of_mem fun p _ => h p.1 p.2, Finset.card_product,
    Finset.card_range, Finset.card_range]

lemma primaryCount_uniform (s3 : Bool) (nc : ℕ) (gv r gc b : ℚ) :
    primaryCount (uniformGrid s3 nc gv r gc b) = 0 := by
  apply maskCount_eq_zero
  intro i j hmask
  have hlt : edgeBinary (uniformGrid s3 nc gv r gc b) i j := hmask.2
  unfold edgeBinary at hlt
  rw [edgeThreshold_uniform, edgeMag_uniform] at hlt
  exact lt_irrefl 0 hlt

lemma chanStd_uniform (s3 : Bool) (nc : ℕ) (gv r gc b : ℚ) (i j : ℕ) :
    chanStd (uniformGrid s3 nc gv r gc b) i j =
      Real.sqrt ((((r - (r + gc + b) / 3) ^ 2 + (gc - (r + gc + b) / 3) ^ 2 +
        (b - (r + gc + b) / 3) ^ 2) / 3 : ℚ)) := by
  unfold chanStd uniformGrid
  norm_num

/-! ### Concrete evaluations of the area conversion -/

lemma areaConvert_65536 : areaConvert 65536 = 9400 := by
  have h1 : areaSqFeetOf 65536 = 294511113 / 31250 := by
    unfold areaSqFeetOf sqMetersPerPixel metersPerPixel metersPerTile
    norm_num
  unfold areaConvert convertArea boundedArea
  rw [h1]
  rw [if_neg (by norm_num), if_neg (by norm_num)]
  have h2 : (294511113 : ℚ) / 31250 / 100 = 294511113 / 3125000 := by norm_num
  rw [h2]
  have hfl : ⌊(294511113 : ℚ) / 3125000⌋ = 94 := by
    rw [Int.floor_eq_iff]
    norm_num
  unfold pyRound
  rw [hfl]
  rw [if_pos (by norm_num)]
  norm_num

lemma areaConvert_zero : areaConvert 0 = 4500 := by
  have h1 : areaSqFeetOf 0 = 0 := by
    unfold areaSqFeetOf
    norm_num
  unfold areaConvert convertArea boundedArea
  rw [h1]
  rw [if_pos (by norm_num)]
  have h45 : (4500 : ℚ) / 100 = ((45 : ℤ) : ℚ) := by norm_num
  rw [h45, pyRound_intCast]
  norm_num

lemma convertArea_7500 : convertArea 7500 = 7500 := by
  unfold convertArea boundedArea
  rw [if_neg (by norm_num), if_neg (by norm_num)]
  have h75 : (7500 : ℚ) / 100 = ((75 : ℤ) : ℚ) := by norm_num
  rw [h75, pyRound_intCast]
  norm_num

/-! ### Evaluating the estimator with a stubbed fetch -/

lemma detect_origin_grid (g : PixelGrid) :
    detect_roof_area true 0 0 (fun _ => some g) = analyzeGrid g := by
  unfold detect_roof_area
  rw [tileXY_origin]
  simp

/-! ### The claims -/

/-- Claim C1: for every input, the value returned by the estimator lies in
the set consisting of 4500, 8000 and the multiples of 100 inside
[500, 15000]; in particular it is always a non-negative integer multiple
of 100. -/
theorem C1_estimator_range (hasCV2 : Bool) (lat lng : ℝ)
    (fetch : ℤ × ℤ → Option PixelGrid) :
    allowedEstimate (detect_roof_area hasCV2 lat lng fetch) ∧
    ∃ k : ℤ, 0 ≤ k ∧ detect_roof_area hasCV2 lat lng fetch = k * 100 := by
  have hall : allowedEstimate (detect_roof_area hasCV2 lat lng fetch) := by
    unfold detect_roof_area
    split_ifs
    · left; rfl
    · cases htile : tileXY lat lng 18 with
      | none => left; rfl
      | some t =>
        cases hf : fetch t with
        | none =>
          simp only [hf]
          left; rfl
        | some g =>
          simp only [hf]
          exact analyzeGrid_allowed g
  exact ⟨hall, allowedEstimate_mul100 _ hall⟩

/-- Claim C2: every failure of a pipeline step is caught and mapped to the
default 4500, and the estimator is a total function (it never propagates an
exception): the imaging-library guard, any fetch or decode failure (the
oracle returning none), a malformed coordinate making the tile computation
raise, and the undetectable signal (too small a primary mask on a grid
without at least three channels) all yield exactly 4500. -/
theorem C2_fail_soft (lat lng : ℝ) (fetch : ℤ × ℤ → Option PixelGrid) :
    detect_roof_area false lat lng fetch = 4500
    ∧ detect_roof_area true lat lng (fun _ => none) = 4500
    ∧ (tileXY lat lng 18 = none → detect_roof_area true lat lng fetch = 4500)
    ∧ ∀ g : PixelGrid, primaryCount g < 100 → g.shape3 = false →
        detect_roof_area true lat lng (fun _ => some g) = 4500 := by
  refine ⟨rfl, ?_, ?_, ?_⟩
  · unfold detect_roof_area
    cases htile : tileXY lat lng 18 <;> simp [htile]
  · intro hn
    simp [detect_roof_area, hn]
  · intro g hc hs
    have hag : analyzeGrid g = 4500 := by
      rw [analyzeGrid_eq, if_pos hc, if_neg]
      rintro ⟨hsh, -⟩
      rw [hs] at hsh
      exact Bool.noConfusion hsh
    unfold detect_roof_area
    cases htile : tileXY lat lng 18 <;> simp [htile, hag]

/-- Witness for C2 at concrete inputs: at latitude 60 the tile computation
raises and the estimator returns 4500; with a fetch that always fails it
returns 4500; with a fetched single-channel uniform grid (primary mask count
0, undetectable) it returns 4500. -/
theorem C2_fail_soft_witness :
    tileXY 60 0 18 = none
    ∧ detect_roof_area true 60 0 (fun _ => none) = 4500
    ∧ detect_roof_area true 60 0 (fun _ => none) = 4500
    ∧ primaryCount (uniformGrid false 1 7 3 4 5) < 100
    ∧ detect_roof_area true 60 0 (fun _ => some (uniformGrid false 1 7 3 4 5)) = 4500 := by
  have hn : tileXY 60 0 18 = none :=
    tileXY_eq_none 60 0 18 (tan_angle_neg_of_gt45 60 (by norm_num) (by norm_num)).le
  have hc : primaryCount (uniformGrid false 1 7 3 4 5) < 100 := by
    rw [primaryCount_uniform]
    norm_num
  refine ⟨hn, (C2_fail_soft 60 0 (fun _ => none)).2.1, (C2_fail_soft 60 0 (fun _ => none)).2.2.1 hn, hc, ?_⟩
  exact (C2_fail_soft 60 0 (fun _ => none)).2.2.2 (uniformGrid false 1 7 3 4 5) hc rfl

/-- Claim C3: the claim asserts that the tile computation implements the
standard slippy-map formula and in particular yields x = 131072 and
y = 131072 at (lat, lng, zoom) = (0, 0, 18).  The spec formula (specTileXY)
does evaluate to (131072, 131072) there, but the coded computation (tileXY)
divides by pi inside the logarithm and shifts the latitude term, so its y
at the origin exceeds 131072 (it is about 281113): the code contradicts the
claim. -/
theorem C3_origin_eval :
    specTileXY 0 0 18 = (131072, 131072) ∧
    ∃ y : ℤ, tileXY 0 0 18 = some (131072, y) ∧ 131072 < y := by
  constructor
  · simp only [specTileXY]
    have hang : (0 : ℝ) * Real.pi / 180 = 0 := by ring
    rw [hang, Real.tan_zero, Real.cos_zero]
    have hx : (((0 : ℝ) + 180) / 360 * 2 ^ 18) = ((131072 : ℤ) : ℝ) := by norm_num
    have hy : (1 - Real.log (0 + 1 / 1) / Real.pi) / 2 * 2 ^ 18 = ((131072 : ℤ) : ℝ) := by
      norm_num [Real.log_one]
    rw [hx, hy, Int.floor_intCast]
  · exact ⟨_, tileXY_origin, y_origin_big⟩

/-- Claim C4: the conversion computes the corrected area
a = c * (38.2 / 256) ^ 2 * 10.764 * 0.6 from the pixel count c, substitutes
4500 when a < 500 and 8000 when a > 15000 (no clamping), otherwise rounds to
the nearest 100; a corrected area of exactly 7500 is returned unchanged. -/
theorem C4_area_conversion (c : ℕ) :
    areaSqFeetOf c = (c : ℚ) * (38.2 / 256) ^ 2 * 10.764 * 0.6
    ∧ areaConvert c =
        (if areaSqFeetOf c < 500 then 4500
         else if 15000 < areaSqFeetOf c then 8000
         else pyRound (areaSqFeetOf c / 100) * 100)
    ∧ convertArea 7500 = 7500 := by
  refine ⟨rfl, ?_, convertArea_7500⟩
  unfold areaConvert convertArea boundedArea
  split_ifs with h1 h2
  · have h45 : (4500 : ℚ) / 100 = ((45 : ℤ) : ℚ) := by norm_num
    rw [h45, pyRound_intCast]
    norm_num
  · have h80 : (8000 : ℚ) / 100 = ((80 : ℤ) : ℚ) := by norm_num
    rw [h80, pyRound_intCast]
    norm_num
  · rfl

/-- Claim C5: when the primary mask counts at least 100 pixels that count is
used directly and no fallback runs; when it counts fewer than 100 on a grid
with a channel axis and at least three channels, the count of the
channel-standard-deviation mask (stddev > 30) is used instead; when it
counts fewer than 100 on a grid without three channels the analysis yields
the fixed 4500, bypassing the area conversion. -/
theorem C5_fallback_policy (g : PixelGrid) :
    (100 ≤ primaryCount g → analyzeGrid g = areaConvert (primaryCount g))
    ∧ (primaryCount g < 100 → g.shape3 = true → 3 ≤ g.nchan →
        analyzeGrid g = areaConvert (maskCount g fun i j => 30 < chanStd g i j))
    ∧ (primaryCount g < 100 → (g.shape3 = false ∨ g.nchan < 3) →
        analyzeGrid g = 4500) := by
  refine ⟨?_, ?_, ?_⟩
  · intro h
    rw [analyzeGrid_eq, if_neg (by omega)]
  · intro h hs hn
    rw [analyzeGrid_eq, if_pos h, if_pos ⟨hs, hn⟩]
    rfl
  · intro h hsn
    rw [analyzeGrid_eq, if_pos h, if_neg]
    rintro ⟨hs, hn⟩
    rcases hsn with h1 | h1
    · rw [hs] at h1
      exact Bool.noConfusion h1
    · omega

/-- Witness for C5 at a concrete grid: a single-channel uniform grid has
primary count 0 (< 100) and no channel axis, so the analysis returns 4500. -/
theorem C5_fallback_policy_witness :
    primaryCount (uniformGrid false 1 9 3 4 5) < 100
    ∧ analyzeGrid (uniformGrid false 1 9 3 4 5) = 4500 := by
  have hp : primaryCount (uniformGrid false 1 9 3 4 5) < 100 := by
    rw [primaryCount_uniform]
    norm_num
  exact ⟨hp, (C5_fallback_policy (uniformGrid false 1 9 3 4 5)).2.2 hp (Or.inl rfl)⟩

/-- Claim C6: the primary building mask is exactly the conjunction of the
darkness mask (luma < 150) and the edge mask (gradient magnitude
sqrt(gx ^ 2 + gy ^ 2) strictly above the 75th percentile of all edge
magnitudes of the grid). -/
theorem C6_primary_mask (g : PixelGrid) (i j : ℕ) :
    buildingMask g i j ↔
      (g.gray i j < 150 ∧
       percentile75 (edgeList g) < Real.sqrt ((gradX g i j ^ 2 + gradY g i j ^ 2 : ℚ))) :=
  Iff.rfl

/-- Claim C9: the post-fetch pipeline is a pure function of the decoded
grid: two runs on the same grid give the same integer, the area conversion
is a pure function of the pixel count, and every analysis result factors
through areaConvert applied to one of the two mask counts (or is the fixed
4500), with no other dependence. -/
theorem C9_determinism (g : PixelGrid) (c : ℕ) :
    analyzeGrid g = analyzeGrid g
    ∧ areaConvert c = areaConvert c
    ∧ (analyzeGrid g = 4500 ∨ analyzeGrid g = areaConvert (primaryCount g)
        ∨ analyzeGrid g = areaConvert (fallbackCount g)) := by
  refine ⟨rfl, rfl, ?_⟩
  rw [analyzeGrid_eq]
  split_ifs
  · right; right; rfl
  · left; rfl
  · right; left; rfl

/-- Claim C7: the claim asserts the tile transform is total with no error
path for every latitude in (-85.05, 85.05).  The coded transform contradicts
this: at latitude 50 (inside that interval) the tangent in the y expression
is negative, the logarithm produces NaN, int() raises, and the transform has
no value. -/
theorem C7_error_path_eval :
    ((-85.05 : ℝ) < 50 ∧ (50 : ℝ) < 85.05) ∧ tileXY 50 0 18 = none :=
  ⟨by norm_num, tileXY_eq_none 50 0 18 (tan_angle_neg_of_gt45 50 (by norm_num) (by norm_num)).le⟩

/-- Claim C10: for every geographic latitude (in [-90, 90]) greater than 45
or at most -45, the y computation feeds log a non-positive tangent, the
int() conversion raises, and the handler returns 4500; consequently the
tile computation only succeeds for latitudes strictly between -45 and 45. -/
theorem C10_lat_range (lat lng : ℝ) (fetch : ℤ × ℤ → Option PixelGrid)
    (h1 : -90 ≤ lat) (h2 : lat ≤ 90) :
    ((45 < lat ∨ lat ≤ -45) →
      tileXY lat lng 18 = none ∧ detect_roof_area true lat lng fetch = 4500)
    ∧ ∀ p : ℤ × ℤ, tileXY lat lng 18 = some p → -45 < lat ∧ lat < 45 := by
  have hnone : ∀ la : ℝ, -90 ≤ la → la ≤ 90 → (45 ≤ la ∨ la ≤ -45) →
      tileXY la lng 18 = none := by
    intro la ha hb hc
    apply tileXY_eq_none
    rcases hc with hc | hc
    · rcases hc.lt_or_eq with hlt | heq
      · exact (tan_angle_neg_of_gt45 la hlt hb).le
      · rw [← heq, tan_angle_at_45]
    · exact tan_angle_nonpos_of_le_neg45 la ha hc
  constructor
  · intro h
    have hn : tileXY lat lng 18 = none := by
      apply hnone lat h1 h2
      rcases h with h | h
      · exact Or.inl h.le
      · exact Or.inr h
    refine ⟨hn, ?_⟩
    simp [detect_roof_area, hn]
  · intro p hp
    by_contra hcon
    push_neg at hcon
    rcases le_or_lt lat (-45) with hle | hgt
    · rw [hnone lat h1 h2 (Or.inr hle)] at hp
      exact Option.noConfusion hp
    · have h45 : 45 ≤ lat := hcon hgt
      rw [hnone lat h1 h2 (Or.inl h45)] at hp
      exact Option.noConfusion hp

/-- Witness for C10 at latitude 50: inside [-90, 90], above 45, the tile
computation yields none and the estimator returns 4500. -/
theorem C10_lat_range_witness :
    (-90 : ℝ) ≤ 50 ∧ (50 : ℝ) ≤ 90 ∧ (45 < (50 : ℝ) ∨ (50 : ℝ) ≤ -45) ∧
    tileXY 50 2 18 = none ∧ detect_roof_area true 50 2 (fun _ => none) = 4500 := by
  refine ⟨by norm_num, by norm_num, Or.inl (by norm_num), ?_⟩
  exact (C10_lat_range 50 2 (fun _ => none) (by norm_num) (by norm_num)).1 (Or.inl (by norm_num))

/-! ### Claim C8 -/

lemma fallbackCount_red : fallbackCount (uniformGrid true 3 66 200 10 10) = 65536 := by
  unfold fallbackCount
  rw [maskCount_eq_all]
  · rfl
  · intro i j
    show 30 < chanStd (uniformGrid true 3 66 200 10 10) i j
    rw [chanStd_uniform]
    have hv : ((((200 : ℚ) - (200 + 10 + 10) / 3) ^ 2 + ((10 : ℚ) - (200 + 10 + 10) / 3) ^ 2 +
        ((10 : ℚ) - (200 + 10 + 10) / 3) ^ 2) / 3) = 72200 / 9 := by norm_num
    rw [hv]
    have hc : (((72200 : ℚ) / 9 : ℚ) : ℝ) = 72200 / 9 := by push_cast; ring
    rw [hc]
    rw [show (30 : ℝ) = Real.sqrt (30 ^ 2) from (Real.sqrt_sq (by norm_num)).symm]
    apply Real.sqrt_lt_sqrt (by norm_num)
    norm_num

lemma analyzeGrid_red : analyzeGrid (uniformGrid true 3 66 200 10 10) = 9400 := by
  rw [analyzeGrid_eq, primaryCount_uniform, if_pos (by norm_num), if_pos ⟨rfl, le_refl 3⟩,
    fallbackCount_red, areaConvert_65536]

/-- Counterexample to claim C8: the claim asserts that every uniform
single-color 256 by 256 grid makes the variance fallback empty and the
estimator return 4500.  A uniform saturated color refutes it: on the
constant color (200, 10, 10) the per-pixel standard deviation across the
three channels is about 89.6 > 30, the fallback mask is full (65536
pixels), and the estimator returns 9400, not 4500. -/
theorem C8_uniform_counterexample :
    detect_roof_area true 0 0 (fun _ => some (uniformGrid true 3 66 200 10 10)) = 9400 ∧
    detect_roof_area true 0 0 (fun _ => some (uniformGrid true 3 66 200 10 10)) ≠ 4500 := by
  rw [detect_origin_grid, analyzeGrid_red]
  exact ⟨rfl, by norm_num⟩

/-- Claim C8 as amended: for every uniform single-color 256 by 256 grid
whose color has per-pixel channel variance at most 900 (standard deviation
at most 30; in particular any achromatic color with equal channels), the
primary mask is empty, the triggered variance fallback is also empty, the
pixel count is 0, the converted area 0 falls below 500, and the estimator
returns the default 4500. -/
theorem C8_uniform_amended (gv r gc b : ℚ)
    (h : ((r - (r + gc + b) / 3) ^ 2 + (gc - (r + gc + b) / 3) ^ 2 +
      (b - (r + gc + b) / 3) ^ 2) / 3 ≤ 900) :
    primaryCount (uniformGrid true 3 gv r gc b) = 0
    ∧ fallbackCount (uniformGrid true 3 gv r gc b) = 0
    ∧ detect_roof_area true 0 0 (fun _ => some (uniformGrid true 3 gv r gc b)) = 4500 := by
  have hp := primaryCount_uniform true 3 gv r gc b
  have hf : fallbackCount (uniformGrid true 3 gv r gc b) = 0 := by
    apply maskCount_eq_zero
    intro i j hcand
    have hstd : 30 < chanStd (uniformGrid true 3 gv r gc b) i j := hcand
    rw [chanStd_uniform] at hstd
    have h900 : ((((r - (r + gc + b) / 3) ^ 2 + (gc - (r + gc + b) / 3) ^ 2 +
        (b - (r + gc + b) / 3) ^ 2) / 3 : ℚ) : ℝ) ≤ 900 := by exact_mod_cast h
    have hle : Real.sqrt ((((r - (r + gc + b) / 3) ^ 2 + (gc - (r + gc + b) / 3) ^ 2 +
        (b - (r + gc + b) / 3) ^ 2) / 3 : ℚ)) ≤ 30 := by
      calc Real.sqrt ((((r - (r + gc + b) / 3) ^ 2 + (gc - (r + gc + b) / 3) ^ 2 +
          (b - (r + gc + b) / 3) ^ 2) / 3 : ℚ)) ≤ Real.sqrt 900 := Real.sqrt_le_sqrt h900
      _ = 30 := by
          rw [show (900 : ℝ) = 30 ^ 2 by norm_num, Real.sqrt_sq (by norm_num : (0 : ℝ) ≤ 30)]
    linarith
  refine ⟨hp, hf, ?_⟩
  rw [detect_origin_grid, analyzeGrid_eq, hp, if_pos (by norm_num),
    if_pos ⟨rfl, le_refl 3⟩, hf, areaConvert_zero]

/-- Witness for the amended C8 at the concrete uniform gray grid with color
(120, 120, 120): the channel variance is 0 and the estimator returns 4500. -/
theorem C8_uniform_amended_witness :
    (((120 : ℚ) - (120 + 120 + 120) / 3) ^ 2 + ((120 : ℚ) - (120 + 120 + 120) / 3) ^ 2 +
      ((120 : ℚ) - (120 + 120 + 120) / 3) ^ 2) / 3 ≤ 900
    ∧ detect_roof_area true 0 0 (fun _ => some (uniformGrid true 3 120 120 120 120)) = 4500 :=
  ⟨by norm_num, (C8_uniform_amended 120 120 120 120 (by norm_num)).2.2⟩
